import Mathlib

/-!
Verification of `opentelemetry-instrumentation-sqlite` (src/lib/index.js).

The module patches five methods of `node:sqlite` — `exec` and `prepare` on
`DatabaseSync.prototype`, and `all`, `get`, `run` on
`StatementSync.prototype` — so that each call runs inside a trace span.
The span lifecycle is handled by `genericWrap` (try/catch/finally).

The shallow embedding below models JavaScript values, spans, the three
wrapper factories from `SqliteInstrumentation.init`, and `genericWrap`,
directly from the source.  The wrap/unwrap bookkeeping and the
enable/disable gating live in the external `@opentelemetry/instrumentation`
base class; those parts are modelled from the spec (sections 4.3 and 4.4)
and are marked as such in their doc comments.
-/

/-- A JavaScript value, as far as the instrumented code inspects one:
`undefined`, `null`, primitives, and plain objects as association lists of
properties. -/
inductive JSVal where
  | undefined : JSVal
  | null : JSVal
  | bool : Bool → JSVal
  | num : Int → JSVal
  | str : String → JSVal
  | obj : List (String × JSVal) → JSVal
deriving Repr

/-- Outcome of a JavaScript call: a normal return value or a thrown value. -/
inductive Outcome where
  | ok : JSVal → Outcome
  | thrown : JSVal → Outcome
deriving Repr

/-- First binding of a key in an association list (JS property lookup order). -/
def assocGet {α : Type} (ms : List (String × α)) (n : String) : Option α :=
  match ms with
  | [] => none
  | (k, u) :: t => if k = n then some u else assocGet t n

/-- Replace the first binding of a key, or append one if the key is absent
(JS property assignment). -/
def assocSet {α : Type} (ms : List (String × α)) (n : String) (v : α) :
    List (String × α) :=
  match ms with
  | [] => [(n, v)]
  | (k, u) :: t => if k = n then (n, v) :: t else (k, u) :: assocSet t n v

/-- Remove the first binding of a key (JS `delete` of a single record). -/
def assocRemove {α : Type} (ms : List (String × α)) (n : String) :
    List (String × α) :=
  match ms with
  | [] => []
  | (k, u) :: t => if k = n then t else (k, u) :: assocRemove t n

/-- Plain property access `v.n`: on an object, the property or `undefined`;
on a primitive, `undefined` (the temporary wrapper object has no such own
property for the properties this code reads, e.g. `this.sourceSQL`). -/
def JSVal.getProp (v : JSVal) (n : String) : JSVal :=
  match v with
  | .obj props => (assocGet props n).getD .undefined
  | _ => .undefined

/-- Optional-chaining access `v?.n` as in `err?.message`: `undefined` when
`v` is `null` or `undefined`, otherwise plain property access. -/
def JSVal.optChain (v : JSVal) (n : String) : JSVal :=
  match v with
  | .null => .undefined
  | .undefined => .undefined
  | w => w.getProp n

/-- Returns `true` when the value has no `message` property of its own: `null`,
`undefined`, any non-object primitive, or an object without a `message`
binding. -/
def JSVal.lacksMessage (v : JSVal) : Bool :=
  match v with
  | .obj props => (assocGet props "message").isNone
  | _ => true

/-- The `SpanStatusCode` enum from `@opentelemetry/api`. -/
inductive SpanStatusCode where
  | unset : SpanStatusCode
  | ok : SpanStatusCode
  | error : SpanStatusCode
deriving Repr, DecidableEq

/-- The `SpanKind` enum from `@opentelemetry/api` (only CLIENT is used; INTERNAL is
the default for spans started without a kind). -/
inductive SpanKind where
  | internal : SpanKind
  | client : SpanKind
deriving Repr, DecidableEq

/-- A span status argument: the `code` field, and the `message` field when
present (`none` models an object literal without a `message` key;
`some .undefined` models `message: undefined`). -/
structure SpanStatus where
  code : SpanStatusCode
  message : Option JSVal
deriving Repr

/-- Semantic-conventions constant `ATTR_DB_SYSTEM`. -/
def ATTR_DB_SYSTEM : String := "db.system"

/-- Semantic-conventions constant `ATTR_DB_QUERY_TEXT`. -/
def ATTR_DB_QUERY_TEXT : String := "db.query.text"

/-- Semantic-conventions constant `DB_SYSTEM_VALUE_SQLITE`. -/
def DB_SYSTEM_VALUE_SQLITE : JSVal := .str "sqlite"

/-- A tracer, as obtained from the base class: it carries the
instrumentation name and version passed to the `InstrumentationBase`
constructor (`pkg.name`, `pkg.version`), which stamp every span it starts. -/
structure Tracer where
  name : String
  version : String

/-- A span: the identity of the tracer that started it, the name and
options given to `startSpan`, the current status, and counters recording
how many times `setStatus` and `end` ran. -/
structure Span where
  tracerName : String
  tracerVersion : String
  name : String
  kind : SpanKind
  attributes : List (String × JSVal)
  status : SpanStatus
  statusSetCount : Nat
  endCount : Nat

/-- Options object passed to `tracer.startSpan`. -/
structure StartSpanOptions where
  kind : SpanKind
  attributes : List (String × JSVal)

/-- Model of `tracer.startSpan(name, options)`: a fresh span with UNSET status,
never ended. -/
def Tracer.startSpan (t : Tracer) (name : String) (opts : StartSpanOptions) :
    Span :=
  { tracerName := t.name
    tracerVersion := t.version
    name := name
    kind := opts.kind
    attributes := opts.attributes
    status := { code := .unset, message := none }
    statusSetCount := 0
    endCount := 0 }

/-- Model of `span.setStatus(st)`. -/
def Span.setStatus (s : Span) (st : SpanStatus) : Span :=
  { s with status := st, statusSetCount := s.statusSetCount + 1 }

/-- Model of `span.end()`. -/
def Span.endSpan (s : Span) : Span :=
  { s with endCount := s.endCount + 1 }

/-- A JavaScript method: its `name` property (the source reads
`original.name` for the span name) and its behavior when applied to a
receiver and an argument list.  The call yields an outcome together with
the list of finished spans it records (base `node:sqlite` methods record
none; instrumented wrappers record their own span). -/
structure Method where
  name : String
  call : JSVal → List JSVal → Outcome × List Span

/-- Result of one `genericWrap` invocation: the outcome delivered to the
caller, the final state of the span that was passed in, the spans recorded
during the call (inner spans first, then the finished own span), and the
list of invocations `(receiver, arguments)` of the original method. -/
structure WrapResult where
  outcome : Outcome
  span : Span
  recorded : List Span
  calls : List (JSVal × List JSVal)

/-- The function `genericWrap(original, self, params, span)` from src/lib/index.js:
`try { const result = original.apply(self, params); span.setStatus({ code:
OK }); return result } catch (err) { span.setStatus({ code: ERROR,
message: err?.message }); throw err } finally { span.end() }`. -/
def genericWrap (original : Method) (self : JSVal) (params : List JSVal)
    (span : Span) : WrapResult :=
  let r := original.call self params
  match r.1 with
  | .ok result =>
      let sp := (span.setStatus { code := .ok, message := none }).endSpan
      { outcome := .ok result
        span := sp
        recorded := r.2 ++ [sp]
        calls := [(self, params)] }
  | .thrown err =>
      let sp := (span.setStatus
        { code := .error, message := some (err.optChain "message") }).endSpan
      { outcome := .thrown err
        span := sp
        recorded := r.2 ++ [sp]
        calls := [(self, params)] }

/-- Body of the wrapped `exec` from `SqliteInstrumentation.init`: start a
span named after the original method, kind CLIENT, with only the
database-system attribute, then delegate to `genericWrap`. -/
def execWrapped (t : Tracer) (original : Method) (self : JSVal)
    (params : List JSVal) : WrapResult :=
  let span := t.startSpan original.name
    { kind := .client
      attributes := [(ATTR_DB_SYSTEM, DB_SYSTEM_VALUE_SQLITE)] }
  genericWrap original self params span

/-- Body of the wrapped `prepare`: the span additionally carries the
query-text attribute equal to `params[0]` (`undefined` when absent). -/
def prepareWrapped (t : Tracer) (original : Method) (self : JSVal)
    (params : List JSVal) : WrapResult :=
  let span := t.startSpan original.name
    { kind := .client
      attributes := [(ATTR_DB_SYSTEM, DB_SYSTEM_VALUE_SQLITE),
                     (ATTR_DB_QUERY_TEXT, params.headD .undefined)] }
  genericWrap original self params span

/-- Body of the wrapped statement methods (`all`/`get`/`run`): the span
carries the query-text attribute read from `this.sourceSQL`, never from the
call arguments. -/
def statementExecutionWrapped (t : Tracer) (original : Method) (self : JSVal)
    (params : List JSVal) : WrapResult :=
  let span := t.startSpan original.name
    { kind := .client
      attributes := [(ATTR_DB_SYSTEM, DB_SYSTEM_VALUE_SQLITE),
                     (ATTR_DB_QUERY_TEXT, self.getProp "sourceSQL")] }
  genericWrap original self params span

/-- The factory passed to `_wrap` for `exec`: the replacement method is the
function literal `function exec(...params) { ... }` (so its `name` is
`"exec"`); it exposes the outcome and the recorded spans. -/
def execWrapper (t : Tracer) (original : Method) : Method :=
  { name := "exec"
    call := fun self params =>
      let r := execWrapped t original self params
      (r.outcome, r.recorded) }

/-- The factory passed to `_wrap` for `prepare` (`function prepare`). -/
def prepareWrapper (t : Tracer) (original : Method) : Method :=
  { name := "prepare"
    call := fun self params =>
      let r := prepareWrapped t original self params
      (r.outcome, r.recorded) }

/-- The factory passed to `_massWrap` for the statement methods
(`function statementExecution`). -/
def statementExecutionWrapper (t : Tracer) (original : Method) : Method :=
  { name := "statementExecution"
    call := fun self params =>
      let r := statementExecutionWrapped t original self params
      (r.outcome, r.recorded) }

/-- The constant `STMT_METHODS = ['all', 'get', 'run']` from src/lib/index.js. -/
def STMT_METHODS : List String := ["all", "get", "run"]

/-- A prototype object together with its patch record.  `methods` is the
prototype's own method table; `patched` is, per method name, the
association to the remembered original implementation.

Modelled from the spec: section 4.3 (Method Interceptor).  The
`_wrap`/`_unwrap` helpers live in the external
`@opentelemetry/instrumentation` base class, not in src/. -/
structure Prototype where
  methods : List (String × Method)
  patched : List (String × Method)

/-- Modelled from the spec: `wrap(target, methodName, factory)` replaces
`target[methodName]` with `factory(original)`, remembering the original for
later restoration; when the method is absent there is nothing to replace. -/
def Prototype.wrap (p : Prototype) (n : String) (factory : Method → Method) :
    Prototype :=
  match assocGet p.methods n with
  | none => p
  | some original =>
      { methods := assocSet p.methods n (factory original)
        patched := (n, original) :: p.patched }

/-- Modelled from the spec: `unwrap(target, methodName)` restores the
remembered original if one exists; if the method was never wrapped it is a
no-op and raises no error. -/
def Prototype.unwrap (p : Prototype) (n : String) : Prototype :=
  match assocGet p.patched n with
  | none => p
  | some original =>
      { methods := assocSet p.methods n original
        patched := assocRemove p.patched n }

/-- Modelled from the spec: `wrapMany` applies `wrap` to each name. -/
def Prototype.massWrap (p : Prototype) (ns : List String)
    (factory : Method → Method) : Prototype :=
  ns.foldl (fun acc n => acc.wrap n factory) p

/-- Modelled from the spec: `unwrapMany` applies `unwrap` to each name. -/
def Prototype.massUnwrap (p : Prototype) (ns : List String) : Prototype :=
  ns.foldl (fun acc n => acc.unwrap n) p

/-- The `node:sqlite` module exports: the two prototypes reached through
`DatabaseSync` and `StatementSync`, and every other property of the exports
object, which the instrumentation never touches. -/
structure Exports where
  dbProto : Prototype
  stmtProto : Prototype
  rest : List (String × JSVal)

/-- The patch callback of the `InstrumentationNodeModuleDefinition` in
`SqliteInstrumentation.init`: wrap `exec` and `prepare` on
`DatabaseSync.prototype`, mass-wrap `STMT_METHODS` on
`StatementSync.prototype`, and return the module exports themselves. -/
def patchExports (t : Tracer) (e : Exports) : Exports :=
  { e with
      dbProto := ((e.dbProto.wrap "exec" (execWrapper t)).wrap "prepare"
        (prepareWrapper t))
      stmtProto := e.stmtProto.massWrap STMT_METHODS
        (statementExecutionWrapper t) }

/-- The unpatch callback: unwrap `exec` and `prepare` on
`DatabaseSync.prototype` and mass-unwrap `STMT_METHODS` on
`StatementSync.prototype`. -/
def unpatchExports (e : Exports) : Exports :=
  { e with
      dbProto := ((e.dbProto.unwrap "exec").unwrap "prepare")
      stmtProto := e.stmtProto.massUnwrap STMT_METHODS }

/-- The instrumentation's externally observable state: the enabled flag,
the tracer, and the (shared, mutated-in-place) module exports.

Modelled from the spec: section 4.4 (Instrumentation Controller) — the
enabled-flag gating of `enable()`/`disable()` lives in the external base
class, not in src/. -/
structure Instr where
  enabled : Bool
  tracer : Tracer
  exportsState : Exports

/-- Modelled from the spec: `enable()` — a no-op when already enabled,
otherwise the transition disabled → enabled that installs the patch. -/
def Instr.enable (i : Instr) : Instr :=
  if i.enabled then i
  else { i with enabled := true
                exportsState := patchExports i.tracer i.exportsState }

/-- Modelled from the spec: `disable()` — a no-op when already disabled,
otherwise the transition enabled → disabled that reverses the patch. -/
def Instr.disable (i : Instr) : Instr :=
  if i.enabled then
    { i with enabled := false, exportsState := unpatchExports i.exportsState }
  else i

/-- One step of the enable/disable control surface. -/
inductive Toggle where
  | enable : Toggle
  | disable : Toggle

/-- Apply one toggle. -/
def applyToggle (i : Instr) : Toggle → Instr
  | .enable => i.enable
  | .disable => i.disable

/-- Run a sequence of enable/disable calls. -/
def runToggles (i : Instr) (ts : List Toggle) : Instr :=
  ts.foldl applyToggle i

/-- Look a method up on a prototype and call it, as a method call on an
instance dispatches through the prototype. -/
def callMethod (p : Prototype) (n : String) (self : JSVal)
    (params : List JSVal) : Option (Outcome × List Span) :=
  (assocGet p.methods n).map (fun m => m.call self params)

/-- The five original `node:sqlite` methods are present on their
prototypes, the patch records start empty, and the base methods record no
spans when called. -/
def WellFormedInit (i : Instr) : Prop :=
  (assocGet i.exportsState.dbProto.methods "exec").isSome ∧
  (assocGet i.exportsState.dbProto.methods "prepare").isSome ∧
  (assocGet i.exportsState.stmtProto.methods "all").isSome ∧
  (assocGet i.exportsState.stmtProto.methods "get").isSome ∧
  (assocGet i.exportsState.stmtProto.methods "run").isSome ∧
  i.exportsState.dbProto.patched = [] ∧
  i.exportsState.stmtProto.patched = [] ∧
  i.enabled = false

theorem assocGet_assocSet_self {α : Type} (ms : List (String × α)) (n : String)
    (v : α) : assocGet (assocSet ms n v) n = some v := by
  induction ms with
  | nil => simp [assocGet, assocSet]
  | cons hd tl ih =>
      obtain ⟨k, u⟩ := hd
      by_cases hk : k = n
      · simp [assocGet, assocSet, hk]
      · simp [assocGet, assocSet, hk, ih]

theorem assocGet_assocSet_ne {α : Type} (ms : List (String × α)) (n k : String)
    (v : α) (hkn : k ≠ n) : assocGet (assocSet ms n v) k = assocGet ms k := by
  induction ms with
  | nil => simp [assocGet, assocSet, Ne.symm hkn]
  | cons hd tl ih =>
      obtain ⟨k', u⟩ := hd
      by_cases hk : k' = n
      · subst hk
        simp [assocGet, assocSet, Ne.symm hkn]
      · simp [assocGet, assocSet, hk, ih]

theorem isSome_assocGet_assocSet {α : Type} (ms : List (String × α))
    (n k : String) (v : α) (h : (assocGet ms k).isSome) :
    (assocGet (assocSet ms n v) k).isSome := by
  by_cases hk : k = n
  · subst hk
    simp [assocGet_assocSet_self]
  · rwa [assocGet_assocSet_ne _ _ _ _ hk]

theorem assocSet_assocSet_same {α : Type} (ms : List (String × α))
    (n : String) (v w : α) :
    assocSet (assocSet ms n w) n v = assocSet ms n v := by
  induction ms with
  | nil => simp [assocSet]
  | cons hd tl ih =>
      obtain ⟨k, u⟩ := hd
      by_cases hk : k = n
      · simp [assocSet, hk]
      · simp [assocSet, hk, ih]

theorem assocSet_cancel {α : Type} (ms : List (String × α)) (n : String)
    (v : α) (h : assocGet ms n = some v) : assocSet ms n v = ms := by
  induction ms with
  | nil => simp [assocGet] at h
  | cons hd tl ih =>
      obtain ⟨k, u⟩ := hd
      by_cases hk : k = n
      · simp [assocGet, hk] at h
        simp [assocSet, hk, h]
      · simp [assocGet, hk] at h
        simp [assocSet, hk, ih h]

theorem assocSet_comm {α : Type} (ms : List (String × α)) (a b : String)
    (x y : α) (hab : a ≠ b) (ha : (assocGet ms a).isSome) :
    assocSet (assocSet ms a x) b y = assocSet (assocSet ms b y) a x := by
  induction ms with
  | nil => simp [assocGet] at ha
  | cons hd tl ih =>
      obtain ⟨k, u⟩ := hd
      by_cases hk : k = a
      · subst hk
        simp [assocSet, hab, Ne.symm hab]
      · by_cases hk2 : k = b
        · subst hk2
          simp [assocSet, hk, Ne.symm hab]
        · simp [assocGet, hk] at ha
          simp [assocSet, hk, hk2, ih ha]

theorem Prototype.wrap_eq (p : Prototype) (n : String) (f : Method → Method)
    (m : Method) (h : assocGet p.methods n = some m) :
    p.wrap n f = ⟨assocSet p.methods n (f m), (n, m) :: p.patched⟩ := by
  simp [Prototype.wrap, h]

theorem Prototype.unwrap_eq (p : Prototype) (n : String) (m : Method)
    (h : assocGet p.patched n = some m) :
    p.unwrap n = ⟨assocSet p.methods n m, assocRemove p.patched n⟩ := by
  simp [Prototype.unwrap, h]

theorem Prototype.unwrap_not_patched (p : Prototype) (n : String)
    (h : assocGet p.patched n = none) : p.unwrap n = p := by
  simp [Prototype.unwrap, h]

theorem wrap2_unwrap2 (p : Prototype) (a b : String) (f g : Method → Method)
    (ma mb : Method) (hab : a ≠ b) (ha : assocGet p.methods a = some ma)
    (hb : assocGet p.methods b = some mb) :
    (((p.wrap a f).wrap b g).unwrap a).unwrap b = p := by
  have h1 : p.wrap a f =
      ⟨assocSet p.methods a (f ma), (a, ma) :: p.patched⟩ :=
    Prototype.wrap_eq _ _ _ _ ha
  have h2 : (p.wrap a f).wrap b g =
      ⟨assocSet (assocSet p.methods a (f ma)) b (g mb),
       (b, mb) :: (a, ma) :: p.patched⟩ := by
    rw [h1]
    exact Prototype.wrap_eq _ _ _ mb
      (by rw [assocGet_assocSet_ne _ _ _ _ (Ne.symm hab)]; exact hb)
  have h3 : ((p.wrap a f).wrap b g).unwrap a =
      ⟨assocSet (assocSet (assocSet p.methods a (f ma)) b (g mb)) a ma,
       (b, mb) :: p.patched⟩ := by
    rw [h2]
    rw [Prototype.unwrap_eq _ _ ma (by simp [assocGet, Ne.symm hab])]
    congr 1
    simp [assocRemove, Ne.symm hab]
  have h4 : (((p.wrap a f).wrap b g).unwrap a).unwrap b =
      ⟨assocSet (assocSet (assocSet (assocSet p.methods a (f ma)) b (g mb))
        a ma) b mb, p.patched⟩ := by
    rw [h3]
    rw [Prototype.unwrap_eq _ _ mb (by simp [assocGet])]
    congr 1
    simp [assocRemove]
  rw [h4]
  have presb : (assocGet (assocSet p.methods a (f ma)) b).isSome := by
    rw [assocGet_assocSet_ne _ _ _ _ (Ne.symm hab), hb]; rfl
  have hM : assocSet (assocSet (assocSet (assocSet p.methods a (f ma)) b
      (g mb)) a ma) b mb = p.methods := by
    rw [assocSet_comm _ b a _ _ (Ne.symm hab) presb,
      assocSet_assocSet_same, assocSet_assocSet_same,
      assocSet_cancel _ _ _ ha, assocSet_cancel _ _ _ hb]
  rw [hM]

theorem wrap3_unwrap3 (p : Prototype) (a b c : String) (f : Method → Method)
    (ma mb mc : Method) (hab : a ≠ b) (hac : a ≠ c) (hbc : b ≠ c)
    (ha : assocGet p.methods a = some ma) (hb : assocGet p.methods b = some mb)
    (hc : assocGet p.methods c = some mc) :
    ((((((p.wrap a f).wrap b f).wrap c f).unwrap a).unwrap b).unwrap c) = p := by
  have h1 : p.wrap a f =
      ⟨assocSet p.methods a (f ma), (a, ma) :: p.patched⟩ :=
    Prototype.wrap_eq _ _ _ _ ha
  have h2 : (p.wrap a f).wrap b f =
      ⟨assocSet (assocSet p.methods a (f ma)) b (f mb),
       (b, mb) :: (a, ma) :: p.patched⟩ := by
    rw [h1]
    exact Prototype.wrap_eq _ _ _ mb
      (by rw [assocGet_assocSet_ne _ _ _ _ (Ne.symm hab)]; exact hb)
  have h3 : ((p.wrap a f).wrap b f).wrap c f =
      ⟨assocSet (assocSet (assocSet p.methods a (f ma)) b (f mb)) c (f mc),
       (c, mc) :: (b, mb) :: (a, ma) :: p.patched⟩ := by
    rw [h2]
    exact Prototype.wrap_eq _ _ _ mc
      (by rw [assocGet_assocSet_ne _ _ _ _ (Ne.symm hbc),
          assocGet_assocSet_ne _ _ _ _ (Ne.symm hac)]; exact hc)
  have h4 : (((p.wrap a f).wrap b f).wrap c f).unwrap a =
      ⟨assocSet (assocSet (assocSet (assocSet p.methods a (f ma)) b (f mb))
        c (f mc)) a ma, (c, mc) :: (b, mb) :: p.patched⟩ := by
    rw [h3]
    rw [Prototype.unwrap_eq _ _ ma
      (by simp [assocGet, Ne.symm hab, Ne.symm hac])]
    congr 1
    simp [assocRemove, Ne.symm hab, Ne.symm hac]
  have h5 : ((((p.wrap a f).wrap b f).wrap c f).unwrap a).unwrap b =
      ⟨assocSet (assocSet (assocSet (assocSet (assocSet p.methods a (f ma))
        b (f mb)) c (f mc)) a ma) b mb, (c, mc) :: p.patched⟩ := by
    rw [h4]
    rw [Prototype.unwrap_eq _ _ mb (by simp [assocGet, Ne.symm hbc])]
    congr 1
    simp [assocRemove, Ne.symm hbc]
  have h6 : (((((p.wrap a f).wrap b f).wrap c f).unwrap a).unwrap b).unwrap c =
      ⟨assocSet (assocSet (assocSet (assocSet (assocSet (assocSet p.methods
        a (f ma)) b (f mb)) c (f mc)) a ma) b mb) c mc, p.patched⟩ := by
    rw [h5]
    rw [Prototype.unwrap_eq _ _ mc (by simp [assocGet])]
    congr 1
    simp [assocRemove]
  rw [h6]
  have presc1 : (assocGet (assocSet (assocSet p.methods a (f ma)) b (f mb))
      c).isSome := by
    rw [assocGet_assocSet_ne _ _ _ _ (Ne.symm hbc),
      assocGet_assocSet_ne _ _ _ _ (Ne.symm hac), hc]; rfl
  have presc2 : (assocGet (assocSet (assocSet (assocSet p.methods a (f ma))
      b (f mb)) a ma) c).isSome := by
    rw [assocGet_assocSet_ne _ _ _ _ (Ne.symm hac),
      assocGet_assocSet_ne _ _ _ _ (Ne.symm hbc),
      assocGet_assocSet_ne _ _ _ _ (Ne.symm hac), hc]; rfl
  have presb1 : (assocGet (assocSet p.methods a (f ma)) b).isSome := by
    rw [assocGet_assocSet_ne _ _ _ _ (Ne.symm hab), hb]; rfl
  have hM : assocSet (assocSet (assocSet (assocSet (assocSet (assocSet
      p.methods a (f ma)) b (f mb)) c (f mc)) a ma) b mb) c mc =
      p.methods := by
    rw [assocSet_comm _ c a _ _ (Ne.symm hac) presc1,
      assocSet_comm _ c b _ _ (Ne.symm hbc) presc2,
      assocSet_assocSet_same,
      assocSet_comm _ b a _ _ (Ne.symm hab) presb1,
      assocSet_assocSet_same, assocSet_assocSet_same,
      assocSet_cancel _ _ _ ha, assocSet_cancel _ _ _ hb,
      assocSet_cancel _ _ _ hc]
  rw [hM]

theorem unpatchExports_patchExports (t : Tracer) (e : Exports)
    (mex mpr mall mget mrun : Method)
    (hex : assocGet e.dbProto.methods "exec" = some mex)
    (hpr : assocGet e.dbProto.methods "prepare" = some mpr)
    (hall : assocGet e.stmtProto.methods "all" = some mall)
    (hget : assocGet e.stmtProto.methods "get" = some mget)
    (hrun : assocGet e.stmtProto.methods "run" = some mrun) :
    unpatchExports (patchExports t e) = e := by
  unfold patchExports unpatchExports
  simp only [Prototype.massWrap, Prototype.massUnwrap, STMT_METHODS,
    List.foldl]
  rw [wrap2_unwrap2 _ _ _ _ _ mex mpr (by decide) hex hpr,
    wrap3_unwrap3 _ _ _ _ _ mall mget mrun (by decide) (by decide) (by decide)
      hall hget hrun]

theorem patchExports_eq (t : Tracer) (e : Exports)
    (mex mpr mall mget mrun : Method)
    (hex : assocGet e.dbProto.methods "exec" = some mex)
    (hpr : assocGet e.dbProto.methods "prepare" = some mpr)
    (hall : assocGet e.stmtProto.methods "all" = some mall)
    (hget : assocGet e.stmtProto.methods "get" = some mget)
    (hrun : assocGet e.stmtProto.methods "run" = some mrun) :
    patchExports t e =
      ⟨⟨assocSet (assocSet e.dbProto.methods "exec" (execWrapper t mex))
          "prepare" (prepareWrapper t mpr),
        ("prepare", mpr) :: ("exec", mex) :: e.dbProto.patched⟩,
       ⟨assocSet (assocSet (assocSet e.stmtProto.methods "all"
          (statementExecutionWrapper t mall)) "get"
          (statementExecutionWrapper t mget)) "run"
          (statementExecutionWrapper t mrun),
        ("run", mrun) :: ("get", mget) :: ("all", mall) ::
          e.stmtProto.patched⟩,
       e.rest⟩ := by
  unfold patchExports
  simp only [Prototype.massWrap, STMT_METHODS, List.foldl]
  rw [Prototype.wrap_eq _ "exec" _ _ hex]
  rw [Prototype.wrap_eq _ "prepare" _ mpr
    (by rw [assocGet_assocSet_ne _ _ _ _ (by decide)]; exact hpr)]
  rw [Prototype.wrap_eq _ "all" _ _ hall]
  rw [Prototype.wrap_eq _ "get" _ mget
    (by rw [assocGet_assocSet_ne _ _ _ _ (by decide)]; exact hget)]
  rw [Prototype.wrap_eq _ "run" _ mrun
    (by rw [assocGet_assocSet_ne _ _ _ _ (by decide),
        assocGet_assocSet_ne _ _ _ _ (by decide)]; exact hrun)]

theorem Prototype.get_wrap_ne (p : Prototype) (m n : String)
    (f : Method → Method) (h : n ≠ m) :
    assocGet (p.wrap m f).methods n = assocGet p.methods n := by
  unfold Prototype.wrap
  cases hm : assocGet p.methods m
  · rfl
  · simp only
    exact assocGet_assocSet_ne _ _ _ _ h

/-- The invariant tying every state reachable by enable/disable calls back
to the initial state: the tracer never changes, and the module exports are
either exactly the initial (unpatched) ones or exactly the patched ones,
in lockstep with the enabled flag. -/
def InstrInv (i0 i : Instr) : Prop :=
  i.tracer = i0.tracer ∧
  ((i.enabled = false ∧ i.exportsState = i0.exportsState) ∨
   (i.enabled = true ∧
    i.exportsState = patchExports i0.tracer i0.exportsState))

theorem instrInv_step (i0 : Instr)
    (hrt : unpatchExports (patchExports i0.tracer i0.exportsState) =
      i0.exportsState)
    (i : Instr) (h : InstrInv i0 i) (tg : Toggle) :
    InstrInv i0 (applyToggle i tg) := by
  obtain ⟨htr, hcase⟩ := h
  cases tg
  case enable =>
    rcases hcase with ⟨hen, hes⟩ | ⟨hen, hes⟩
    · refine ⟨?_, .inr ⟨?_, ?_⟩⟩ <;>
        simp [applyToggle, Instr.enable, hen, hes, htr]
    · refine ⟨?_, .inr ⟨?_, ?_⟩⟩ <;>
        simp [applyToggle, Instr.enable, hen, hes, htr]
  case disable =>
    rcases hcase with ⟨hen, hes⟩ | ⟨hen, hes⟩
    · refine ⟨?_, .inl ⟨?_, ?_⟩⟩ <;>
        simp [applyToggle, Instr.disable, hen, hes, htr]
    · refine ⟨?_, .inl ⟨?_, ?_⟩⟩ <;>
        simp [applyToggle, Instr.disable, hen, hes, htr, hrt]

theorem instrInv_run (i0 : Instr)
    (hrt : unpatchExports (patchExports i0.tracer i0.exportsState) =
      i0.exportsState)
    (i : Instr) (h : InstrInv i0 i) (ts : List Toggle) :
    InstrInv i0 (runToggles i ts) := by
  induction ts generalizing i with
  | nil => exact h
  | cons t ts ih => exact ih _ (instrInv_step i0 hrt i h t)

theorem genericWrap_eq_ok (original : Method) (self : JSVal)
    (params : List JSVal) (span : Span) (v : JSVal)
    (h : (original.call self params).1 = .ok v) :
    genericWrap original self params span =
      ⟨.ok v, (span.setStatus ⟨.ok, none⟩).endSpan,
       (original.call self params).2 ++ [(span.setStatus ⟨.ok, none⟩).endSpan],
       [(self, params)]⟩ := by
  simp [genericWrap, h]

theorem genericWrap_eq_thrown (original : Method) (self : JSVal)
    (params : List JSVal) (span : Span) (err : JSVal)
    (h : (original.call self params).1 = .thrown err) :
    genericWrap original self params span =
      ⟨.thrown err,
       (span.setStatus ⟨.error, some (err.optChain "message")⟩).endSpan,
       (original.call self params).2 ++
         [(span.setStatus ⟨.error, some (err.optChain "message")⟩).endSpan],
       [(self, params)]⟩ := by
  simp [genericWrap, h]

theorem genericWrap_span_attributes (original : Method) (self : JSVal)
    (params : List JSVal) (span : Span) :
    (genericWrap original self params span).span.attributes =
      span.attributes := by
  cases h : (original.call self params).1
  · rw [genericWrap_eq_ok _ _ _ _ _ h]; rfl
  · rw [genericWrap_eq_thrown _ _ _ _ _ h]; rfl

theorem genericWrap_span_name (original : Method) (self : JSVal)
    (params : List JSVal) (span : Span) :
    (genericWrap original self params span).span.name = span.name := by
  cases h : (original.call self params).1
  · rw [genericWrap_eq_ok _ _ _ _ _ h]; rfl
  · rw [genericWrap_eq_thrown _ _ _ _ _ h]; rfl

theorem genericWrap_span_kind (original : Method) (self : JSVal)
    (params : List JSVal) (span : Span) :
    (genericWrap original self params span).span.kind = span.kind := by
  cases h : (original.call self params).1
  · rw [genericWrap_eq_ok _ _ _ _ _ h]; rfl
  · rw [genericWrap_eq_thrown _ _ _ _ _ h]; rfl

theorem genericWrap_span_tracerName (original : Method) (self : JSVal)
    (params : List JSVal) (span : Span) :
    (genericWrap original self params span).span.tracerName =
      span.tracerName := by
  cases h : (original.call self params).1
  · rw [genericWrap_eq_ok _ _ _ _ _ h]; rfl
  · rw [genericWrap_eq_thrown _ _ _ _ _ h]; rfl

theorem genericWrap_span_tracerVersion (original : Method) (self : JSVal)
    (params : List JSVal) (span : Span) :
    (genericWrap original self params span).span.tracerVersion =
      span.tracerVersion := by
  cases h : (original.call self params).1
  · rw [genericWrap_eq_ok _ _ _ _ _ h]; rfl
  · rw [genericWrap_eq_thrown _ _ _ _ _ h]; rfl

/-- A tracer fixture for concrete instantiations. -/
def sampleTracer : Tracer :=
  ⟨"opentelemetry-instrumentation-sqlite", "1.0.0"⟩

/-- A base method that returns `undefined` and records no spans. -/
def sampleBaseMethod (n : String) : Method :=
  ⟨n, fun _ _ => (.ok .undefined, [])⟩

/-- A method that returns the number 7 and records no spans. -/
def sampleOkMethod : Method :=
  ⟨"exec", fun _ _ => (.ok (.num 7), [])⟩

/-- An error object with a `message` property. -/
def sampleErr : JSVal :=
  .obj [("message", .str "near \"invalid\": syntax error")]

/-- A method that always throws `sampleErr`. -/
def sampleThrowMethod : Method :=
  ⟨"prepare", fun _ _ => (.thrown sampleErr, [])⟩

/-- A method that always throws `null`, which has no `message` property. -/
def sampleNullThrowMethod : Method :=
  ⟨"run", fun _ _ => (.thrown .null, [])⟩

/-- A span fixture. -/
def sampleSpan : Span :=
  sampleTracer.startSpan "exec"
    ⟨.client, [(ATTR_DB_SYSTEM, DB_SYSTEM_VALUE_SQLITE)]⟩

/-- A statement receiver fixture carrying a `sourceSQL` property. -/
def sampleStmt : JSVal :=
  .obj [("sourceSQL", .str "INSERT INTO test (id, data) VALUES (?, ?)")]

/-- Module exports fixture: the five instrumented methods plus an extra
`close` method and an extra exports property. -/
def sampleExports : Exports :=
  ⟨⟨[("exec", sampleBaseMethod "exec"), ("prepare", sampleBaseMethod "prepare"),
     ("close", sampleBaseMethod "close")], []⟩,
   ⟨[("all", sampleBaseMethod "all"), ("get", sampleBaseMethod "get"),
     ("run", sampleBaseMethod "run")], []⟩,
   [("version", .str "1")]⟩

/-- A freshly constructed (disabled) instrumentation fixture. -/
def sampleInstr : Instr :=
  ⟨false, sampleTracer, sampleExports⟩

/-- C1: `genericWrap` invokes the operation exactly once, with the given
receiver as execution context and the arguments applied positionally; its
outcome is exactly the operation's outcome, so the instrumented
`exec`/`prepare`/`all`/`get`/`run` wrappers return exactly what the
original method returns (including `undefined`); and on normal return the
span status is set to OK. -/
theorem c1_genericWrap_transparent (original : Method) (self : JSVal)
    (params : List JSVal) (span : Span) (t : Tracer) :
    (genericWrap original self params span).calls = [(self, params)] ∧
    (genericWrap original self params span).outcome =
      (original.call self params).1 ∧
    (∀ v, (original.call self params).1 = .ok v →
      (genericWrap original self params span).outcome = .ok v ∧
      (genericWrap original self params span).span.status = ⟨.ok, none⟩) ∧
    ((execWrapper t original).call self params).1 =
      (original.call self params).1 ∧
    ((prepareWrapper t original).call self params).1 =
      (original.call self params).1 ∧
    ((statementExecutionWrapper t original).call self params).1 =
      (original.call self params).1 := by
  have hcall : ∀ sp : Span,
      (genericWrap original self params sp).calls = [(self, params)] := by
    intro sp
    cases h : (original.call self params).1
    · rw [genericWrap_eq_ok _ _ _ _ _ h]
    · rw [genericWrap_eq_thrown _ _ _ _ _ h]
  have hout : ∀ sp : Span,
      (genericWrap original self params sp).outcome =
        (original.call self params).1 := by
    intro sp
    cases h : (original.call self params).1
    · rw [genericWrap_eq_ok _ _ _ _ _ h]
    · rw [genericWrap_eq_thrown _ _ _ _ _ h]
  refine ⟨hcall span, hout span, ?_, ?_, ?_, ?_⟩
  · intro v hv
    rw [genericWrap_eq_ok _ _ _ _ _ hv]
    exact ⟨rfl, rfl⟩
  · simp only [execWrapper, execWrapped]
    exact hout _
  · simp only [prepareWrapper, prepareWrapped]
    exact hout _
  · simp only [statementExecutionWrapper, statementExecutionWrapped]
    exact hout _

/-- C1 witness at a concrete operation that returns the number 7. -/
theorem c1_genericWrap_transparent_witness :
    (genericWrap sampleOkMethod .null [] sampleSpan).calls = [(.null, [])] ∧
    (genericWrap sampleOkMethod .null [] sampleSpan).outcome = .ok (.num 7) ∧
    (genericWrap sampleOkMethod .null [] sampleSpan).span.status =
      ⟨.ok, none⟩ := by
  have h := c1_genericWrap_transparent sampleOkMethod .null [] sampleSpan
    sampleTracer
  exact ⟨h.1, (h.2.2.1 (.num 7) rfl).1, (h.2.2.1 (.num 7) rfl).2⟩

/-- C2: when the operation throws, `genericWrap` sets the span status to
ERROR with the message field populated from the thrown error's `message`
property, and re-throws the identical error value, at the `genericWrap`
level and through each of the three wrapper factories. -/
theorem c2_genericWrap_error (original : Method) (self : JSVal)
    (params : List JSVal) (span : Span) (err : JSVal) (t : Tracer)
    (h : (original.call self params).1 = .thrown err) :
    (genericWrap original self params span).outcome = .thrown err ∧
    (genericWrap original self params span).span.status =
      ⟨.error, some (err.optChain "message")⟩ ∧
    (∀ props m, err = .obj props → assocGet props "message" = some m →
      (genericWrap original self params span).span.status =
        ⟨.error, some m⟩) ∧
    ((execWrapper t original).call self params).1 = .thrown err ∧
    ((prepareWrapper t original).call self params).1 = .thrown err ∧
    ((statementExecutionWrapper t original).call self params).1 =
      .thrown err := by
  refine ⟨?_, ?_, ?_, ?_, ?_, ?_⟩
  · rw [genericWrap_eq_thrown _ _ _ _ _ h]
  · rw [genericWrap_eq_thrown _ _ _ _ _ h]
    rfl
  · intro props m hobj hm
    rw [genericWrap_eq_thrown _ _ _ _ _ h]
    subst hobj
    simp [JSVal.optChain, JSVal.getProp, hm, Span.setStatus, Span.endSpan]
  · simp only [execWrapper, execWrapped]
    rw [genericWrap_eq_thrown _ _ _ _ _ h]
  · simp only [prepareWrapper, prepareWrapped]
    rw [genericWrap_eq_thrown _ _ _ _ _ h]
  · simp only [statementExecutionWrapper, statementExecutionWrapped]
    rw [genericWrap_eq_thrown _ _ _ _ _ h]

/-- C2 witness at a concrete operation throwing an error object with a
`message` property. -/
theorem c2_genericWrap_error_witness :
    (sampleThrowMethod.call .null []).1 = .thrown sampleErr ∧
    (genericWrap sampleThrowMethod .null [] sampleSpan).outcome =
      .thrown sampleErr ∧
    (genericWrap sampleThrowMethod .null [] sampleSpan).span.status =
      ⟨.error, some (.str "near \"invalid\": syntax error")⟩ := by
  have h := c2_genericWrap_error sampleThrowMethod .null [] sampleSpan
    sampleErr sampleTracer rfl
  exact ⟨rfl, h.1, h.2.2.1 _ _ rfl rfl⟩

/-- C3: on every exit path `genericWrap` ends the span exactly once, sets
the status exactly once, and invokes the operation exactly once. -/
theorem c3_span_finalization (original : Method) (self : JSVal)
    (params : List JSVal) (span : Span) :
    (genericWrap original self params span).span.endCount =
      span.endCount + 1 ∧
    (genericWrap original self params span).span.statusSetCount =
      span.statusSetCount + 1 ∧
    (genericWrap original self params span).calls = [(self, params)] := by
  cases h : (original.call self params).1
  · rw [genericWrap_eq_ok _ _ _ _ _ h]
    exact ⟨rfl, rfl, rfl⟩
  · rw [genericWrap_eq_thrown _ _ _ _ _ h]
    exact ⟨rfl, rfl, rfl⟩

/-- C4: each operation category carries exactly its specified span
attributes — `exec` only the database-system attribute and no query-text
attribute; `prepare` additionally the query-text attribute equal to the
first call argument; `all`/`get`/`run` additionally the query-text
attribute read from the receiver's own `sourceSQL` property, independent
of the call arguments. -/
theorem c4_attribute_catalog (t : Tracer) (original : Method) (self : JSVal)
    (params : List JSVal) :
    (execWrapped t original self params).span.attributes =
      [(ATTR_DB_SYSTEM, DB_SYSTEM_VALUE_SQLITE)] ∧
    assocGet (execWrapped t original self params).span.attributes
      ATTR_DB_QUERY_TEXT = none ∧
    (prepareWrapped t original self params).span.attributes =
      [(ATTR_DB_SYSTEM, DB_SYSTEM_VALUE_SQLITE),
       (ATTR_DB_QUERY_TEXT, params.headD .undefined)] ∧
    (∀ q rest, params = q :: rest →
      assocGet (prepareWrapped t original self params).span.attributes
        ATTR_DB_QUERY_TEXT = some q) ∧
    (statementExecutionWrapped t original self params).span.attributes =
      [(ATTR_DB_SYSTEM, DB_SYSTEM_VALUE_SQLITE),
       (ATTR_DB_QUERY_TEXT, self.getProp "sourceSQL")] ∧
    (∀ params2,
      (statementExecutionWrapped t original self params2).span.attributes =
        (statementExecutionWrapped t original self params).span.attributes) := by
  refine ⟨?_, ?_, ?_, ?_, ?_, ?_⟩
  · simp only [execWrapped]
    rw [genericWrap_span_attributes]
    rfl
  · simp only [execWrapped]
    rw [genericWrap_span_attributes]
    rfl
  · simp only [prepareWrapped]
    rw [genericWrap_span_attributes]
    rfl
  · intro q rest hp
    subst hp
    simp only [prepareWrapped]
    rw [genericWrap_span_attributes]
    rfl
  · simp only [statementExecutionWrapped]
    rw [genericWrap_span_attributes]
    rfl
  · intro params2
    simp only [statementExecutionWrapped]
    rw [genericWrap_span_attributes, genericWrap_span_attributes]

/-- C4 witness: a concrete `prepare` call with SQL text and a concrete
`exec` call, plus the statement wrapper reading `sourceSQL` off the
receiver. -/
theorem c4_attribute_catalog_witness :
    assocGet (prepareWrapped sampleTracer sampleOkMethod .null
      [.str "CREATE TABLE t (id)"]).span.attributes ATTR_DB_QUERY_TEXT =
      some (.str "CREATE TABLE t (id)") ∧
    assocGet (execWrapped sampleTracer sampleOkMethod .null
      []).span.attributes ATTR_DB_QUERY_TEXT = none ∧
    (statementExecutionWrapped sampleTracer sampleOkMethod sampleStmt
      [.num 1]).span.attributes =
      [(ATTR_DB_SYSTEM, DB_SYSTEM_VALUE_SQLITE),
       (ATTR_DB_QUERY_TEXT,
        .str "INSERT INTO test (id, data) VALUES (?, ?)")] := by
  have h1 := c4_attribute_catalog sampleTracer sampleOkMethod .null
    [.str "CREATE TABLE t (id)"]
  have h2 := c4_attribute_catalog sampleTracer sampleOkMethod .null []
  have h3 := c4_attribute_catalog sampleTracer sampleOkMethod sampleStmt
    [.num 1]
  exact ⟨h1.2.2.2.1 _ _ rfl, h2.2.1, h3.2.2.2.2.1⟩

/-- C5: every span created by the three wrapper factories has kind CLIENT,
is named exactly after the original method being traced, and carries the
tracer's instrumentation name and version (the package name and version
passed to the base-class constructor). -/
theorem c5_span_identity (t : Tracer) (original : Method) (self : JSVal)
    (params : List JSVal) :
    (execWrapped t original self params).span.kind = .client ∧
    (execWrapped t original self params).span.name = original.name ∧
    (execWrapped t original self params).span.tracerName = t.name ∧
    (execWrapped t original self params).span.tracerVersion = t.version ∧
    (prepareWrapped t original self params).span.kind = .client ∧
    (prepareWrapped t original self params).span.name = original.name ∧
    (prepareWrapped t original self params).span.tracerName = t.name ∧
    (prepareWrapped t original self params).span.tracerVersion = t.version ∧
    (statementExecutionWrapped t original self params).span.kind = .client ∧
    (statementExecutionWrapped t original self params).span.name =
      original.name ∧
    (statementExecutionWrapped t original self params).span.tracerName =
      t.name ∧
    (statementExecutionWrapped t original self params).span.tracerVersion =
      t.version := by
  refine ⟨?_, ?_, ?_, ?_, ?_, ?_, ?_, ?_, ?_, ?_, ?_, ?_⟩ <;>
    simp only [execWrapped, prepareWrapped, statementExecutionWrapped] <;>
    first
    | (rw [genericWrap_span_kind]; rfl)
    | (rw [genericWrap_span_name]; rfl)
    | (rw [genericWrap_span_tracerName]; rfl)
    | (rw [genericWrap_span_tracerVersion]; rfl)

/-- C9: for a thrown value lacking a `message` property — `null`,
`undefined`, a non-object primitive, or an object without one — the
status-setting step stores ERROR with an undefined message (the model of
`err?.message` is total, so it cannot throw), and the original value is
still re-thrown. -/
theorem c9_missing_message (original : Method) (self : JSVal)
    (params : List JSVal) (span : Span) (err : JSVal)
    (hl : err.lacksMessage = true)
    (h : (original.call self params).1 = .thrown err) :
    (genericWrap original self params span).span.status =
      ⟨.error, some .undefined⟩ ∧
    (genericWrap original self params span).outcome = .thrown err := by
  have hm : err.optChain "message" = .undefined := by
    cases err
    case obj props =>
      simp [JSVal.lacksMessage, Option.isNone_iff_eq_none] at hl
      simp [JSVal.optChain, JSVal.getProp, hl]
    all_goals rfl
  rw [genericWrap_eq_thrown _ _ _ _ _ h]
  exact ⟨by rw [hm]; rfl, rfl⟩

/-- C9 witness: a thrown `null` yields ERROR status with an undefined
message and is re-thrown unchanged. -/
theorem c9_missing_message_witness :
    JSVal.lacksMessage .null = true ∧
    (genericWrap sampleNullThrowMethod .undefined [] sampleSpan).span.status =
      ⟨.error, some .undefined⟩ ∧
    (genericWrap sampleNullThrowMethod .undefined [] sampleSpan).outcome =
      .thrown .null := by
  have h := c9_missing_message sampleNullThrowMethod .undefined [] sampleSpan
    .null rfl rfl
  exact ⟨rfl, h.1, h.2⟩

/-- C10: the patch hook returns the module exports it received — in the
model, every component other than the five wrapped prototype members is
unchanged: the other exports properties, every `DatabaseSync.prototype`
member other than `exec` and `prepare`, and every `StatementSync.prototype`
member other than `all`, `get`, `run`. -/
theorem c10_patch_frame (t : Tracer) (e : Exports) :
    (patchExports t e).rest = e.rest ∧
    (∀ n, n ≠ "exec" → n ≠ "prepare" →
      assocGet (patchExports t e).dbProto.methods n =
        assocGet e.dbProto.methods n) ∧
    (∀ n, ¬ n ∈ STMT_METHODS →
      assocGet (patchExports t e).stmtProto.methods n =
        assocGet e.stmtProto.methods n) := by
  refine ⟨rfl, ?_, ?_⟩
  · intro n h1 h2
    unfold patchExports
    simp only
    rw [Prototype.get_wrap_ne _ _ _ _ h2, Prototype.get_wrap_ne _ _ _ _ h1]
  · intro n hn
    simp only [STMT_METHODS, List.mem_cons, List.not_mem_nil, or_false,
      not_or] at hn
    obtain ⟨h1, h2, h3⟩ := hn
    unfold patchExports
    simp only [Prototype.massWrap, STMT_METHODS, List.foldl]
    rw [Prototype.get_wrap_ne _ _ _ _ h3, Prototype.get_wrap_ne _ _ _ _ h2,
      Prototype.get_wrap_ne _ _ _ _ h1]

/-- C10 witness: patching the sample exports leaves the `close` method and
the extra exports property untouched. -/
theorem c10_patch_frame_witness :
    ("close" ≠ "exec" ∧ "close" ≠ "prepare" ∧ ¬ "close" ∈ STMT_METHODS) ∧
    assocGet (patchExports sampleTracer sampleExports).dbProto.methods
      "close" = assocGet sampleExports.dbProto.methods "close" ∧
    assocGet (patchExports sampleTracer sampleExports).stmtProto.methods
      "close" = assocGet sampleExports.stmtProto.methods "close" ∧
    (patchExports sampleTracer sampleExports).rest = sampleExports.rest := by
  have h := c10_patch_frame sampleTracer sampleExports
  exact ⟨⟨by decide, by decide, by decide⟩,
    h.2.1 "close" (by decide) (by decide), h.2.2 "close" (by decide), h.1⟩

/-- C6: for a disabled instrumentation whose prototypes carry the five
original methods, enabling and then disabling restores the state exactly —
each prototype member is again the very same original method, and hence
every subsequent call behaves exactly as before instrumentation, with no
span-creation side effect. -/
theorem c6_wrap_unwrap_roundtrip (i : Instr) (mex mpr mall mget mrun : Method)
    (hex : assocGet i.exportsState.dbProto.methods "exec" = some mex)
    (hpr : assocGet i.exportsState.dbProto.methods "prepare" = some mpr)
    (hall : assocGet i.exportsState.stmtProto.methods "all" = some mall)
    (hget : assocGet i.exportsState.stmtProto.methods "get" = some mget)
    (hrun : assocGet i.exportsState.stmtProto.methods "run" = some mrun)
    (hdis : i.enabled = false) :
    i.enable.disable = i ∧
    assocGet i.enable.disable.exportsState.dbProto.methods "exec" =
      some mex ∧
    assocGet i.enable.disable.exportsState.dbProto.methods "prepare" =
      some mpr ∧
    assocGet i.enable.disable.exportsState.stmtProto.methods "all" =
      some mall ∧
    assocGet i.enable.disable.exportsState.stmtProto.methods "get" =
      some mget ∧
    assocGet i.enable.disable.exportsState.stmtProto.methods "run" =
      some mrun ∧
    (∀ self params,
      callMethod i.enable.disable.exportsState.dbProto "exec" self params =
        some (mex.call self params)) := by
  have hmain : i.enable.disable = i := by
    obtain ⟨en, tr, es⟩ := i
    simp only at hdis hex hpr hall hget hrun
    subst hdis
    simp only [Instr.enable, Instr.disable, Bool.false_eq_true, if_false,
      if_true]
    rw [unpatchExports_patchExports tr es mex mpr mall mget mrun
      hex hpr hall hget hrun]
  refine ⟨hmain, ?_, ?_, ?_, ?_, ?_, ?_⟩ <;> rw [hmain]
  · exact hex
  · exact hpr
  · exact hall
  · exact hget
  · exact hrun
  · intro self params
    simp [callMethod, hex]

/-- C6 witness at a concrete freshly-constructed instrumentation. -/
theorem c6_wrap_unwrap_roundtrip_witness :
    sampleInstr.enable.disable = sampleInstr ∧
    assocGet sampleInstr.enable.disable.exportsState.dbProto.methods "exec" =
      some (sampleBaseMethod "exec") ∧
    callMethod sampleInstr.enable.disable.exportsState.dbProto "exec"
      .null [] = some (.ok .undefined, []) := by
  have h := c6_wrap_unwrap_roundtrip sampleInstr (sampleBaseMethod "exec")
    (sampleBaseMethod "prepare") (sampleBaseMethod "all")
    (sampleBaseMethod "get") (sampleBaseMethod "run") rfl rfl rfl rfl rfl rfl
  exact ⟨h.1, h.2.1, h.2.2.2.2.2.2 .null []⟩

/-- C7: the patch-record invariant of the enable/disable state machine —
`enable` and `disable` are idempotent, unwrap of a never-wrapped method is
a no-op, and in every state reachable from a well-formed disabled initial
state no method name appears twice in either patch record. -/
theorem c7_patch_record_invariant (i0 : Instr) (mex mpr mall mget mrun : Method)
    (hex : assocGet i0.exportsState.dbProto.methods "exec" = some mex)
    (hpr : assocGet i0.exportsState.dbProto.methods "prepare" = some mpr)
    (hall : assocGet i0.exportsState.stmtProto.methods "all" = some mall)
    (hget : assocGet i0.exportsState.stmtProto.methods "get" = some mget)
    (hrun : assocGet i0.exportsState.stmtProto.methods "run" = some mrun)
    (hpd : i0.exportsState.dbProto.patched = [])
    (hps : i0.exportsState.stmtProto.patched = [])
    (hdis : i0.enabled = false) (ts : List Toggle) :
    (∀ j : Instr, j.enable.enable = j.enable) ∧
    (∀ j : Instr, j.disable.disable = j.disable) ∧
    (∀ (p : Prototype) (n : String),
      assocGet p.patched n = none → p.unwrap n = p) ∧
    ((runToggles i0 ts).exportsState.dbProto.patched.map Prod.fst).Nodup ∧
    ((runToggles i0 ts).exportsState.stmtProto.patched.map Prod.fst).Nodup := by
  have henable : ∀ j : Instr, j.enable.enable = j.enable := by
    intro j
    by_cases hj : j.enabled = true
    · simp [Instr.enable, hj]
    · simp only [Bool.not_eq_true] at hj
      simp [Instr.enable, hj]
  have hdisable : ∀ j : Instr, j.disable.disable = j.disable := by
    intro j
    by_cases hj : j.enabled = true
    · simp [Instr.disable, hj]
    · simp only [Bool.not_eq_true] at hj
      simp [Instr.disable, hj]
  have hrt : unpatchExports (patchExports i0.tracer i0.exportsState) =
      i0.exportsState :=
    unpatchExports_patchExports _ _ mex mpr mall mget mrun
      hex hpr hall hget hrun
  have hinv := instrInv_run i0 hrt i0 ⟨rfl, .inl ⟨hdis, rfl⟩⟩ ts
  refine ⟨henable, hdisable, Prototype.unwrap_not_patched, ?_, ?_⟩ <;>
    rcases hinv.2 with ⟨hen, hes⟩ | ⟨hen, hes⟩
  · rw [hes, hpd]
    simp
  · rw [hes, patchExports_eq i0.tracer i0.exportsState mex mpr mall mget mrun
      hex hpr hall hget hrun]
    simp only [hpd]
    simp
  · rw [hes, hps]
    simp
  · rw [hes, patchExports_eq i0.tracer i0.exportsState mex mpr mall mget mrun
      hex hpr hall hget hrun]
    simp only [hps]
    simp

/-- C7 witness: concrete idempotence and a duplicate-free patch record
after enabling the sample instrumentation. -/
theorem c7_patch_record_invariant_witness :
    sampleInstr.enable.enable = sampleInstr.enable ∧
    sampleInstr.disable.disable = sampleInstr.disable ∧
    ((runToggles sampleInstr
      [Toggle.enable]).exportsState.dbProto.patched.map Prod.fst).Nodup ∧
    ((runToggles sampleInstr
      [Toggle.enable]).exportsState.stmtProto.patched.map Prod.fst).Nodup := by
  have h := c7_patch_record_invariant sampleInstr (sampleBaseMethod "exec")
    (sampleBaseMethod "prepare") (sampleBaseMethod "all")
    (sampleBaseMethod "get") (sampleBaseMethod "run")
    rfl rfl rfl rfl rfl rfl rfl rfl [Toggle.enable]
  exact ⟨h.1 sampleInstr, h.2.1 sampleInstr, h.2.2.2.1, h.2.2.2.2⟩

/-- C8: starting from a well-formed disabled state, in any state reached
by a sequence of enable/disable calls in which the instrumentation is
disabled, the module exports are exactly the initial unpatched ones, so a
call to any of the five methods yields the original outcome and records no
span. -/
theorem c8_disabled_transparent (i0 : Instr) (mex mpr mall mget mrun : Method)
    (hex : assocGet i0.exportsState.dbProto.methods "exec" = some mex)
    (hpr : assocGet i0.exportsState.dbProto.methods "prepare" = some mpr)
    (hall : assocGet i0.exportsState.stmtProto.methods "all" = some mall)
    (hget : assocGet i0.exportsState.stmtProto.methods "get" = some mget)
    (hrun : assocGet i0.exportsState.stmtProto.methods "run" = some mrun)
    (hdis : i0.enabled = false)
    (hpx : ∀ self params, (mex.call self params).2 = [])
    (hppr : ∀ self params, (mpr.call self params).2 = [])
    (hpal : ∀ self params, (mall.call self params).2 = [])
    (hpge : ∀ self params, (mget.call self params).2 = [])
    (hpru : ∀ self params, (mrun.call self params).2 = [])
    (ts : List Toggle) (hoff : (runToggles i0 ts).enabled = false) :
    (runToggles i0 ts).exportsState = i0.exportsState ∧
    (∀ self params,
      callMethod (runToggles i0 ts).exportsState.dbProto "exec" self params =
        some ((mex.call self params).1, [])) ∧
    (∀ self params,
      callMethod (runToggles i0 ts).exportsState.dbProto "prepare" self
        params = some ((mpr.call self params).1, [])) ∧
    (∀ self params,
      callMethod (runToggles i0 ts).exportsState.stmtProto "all" self params =
        some ((mall.call self params).1, [])) ∧
    (∀ self params,
      callMethod (runToggles i0 ts).exportsState.stmtProto "get" self params =
        some ((mget.call self params).1, [])) ∧
    (∀ self params,
      callMethod (runToggles i0 ts).exportsState.stmtProto "run" self params =
        some ((mrun.call self params).1, [])) := by
  have hrt : unpatchExports (patchExports i0.tracer i0.exportsState) =
      i0.exportsState :=
    unpatchExports_patchExports _ _ mex mpr mall mget mrun
      hex hpr hall hget hrun
  have hinv := instrInv_run i0 hrt i0 ⟨rfl, .inl ⟨hdis, rfl⟩⟩ ts
  rcases hinv.2 with ⟨hen, hes⟩ | ⟨hen, hes⟩
  · refine ⟨hes, ?_, ?_, ?_, ?_, ?_⟩
    · intro self params
      rw [hes]
      simp only [callMethod, hex, Option.map_some']
      rw [← hpx self params]
    · intro self params
      rw [hes]
      simp only [callMethod, hpr, Option.map_some']
      rw [← hppr self params]
    · intro self params
      rw [hes]
      simp only [callMethod, hall, Option.map_some']
      rw [← hpal self params]
    · intro self params
      rw [hes]
      simp only [callMethod, hget, Option.map_some']
      rw [← hpge self params]
    · intro self params
      rw [hes]
      simp only [callMethod, hrun, Option.map_some']
      rw [← hpru self params]
  · rw [hen] at hoff
    exact absurd hoff (by simp)

/-- C8 witness: enable then disable on the sample instrumentation leaves a
disabled state whose `exec` behaves originally and records no span. -/
theorem c8_disabled_transparent_witness :
    (runToggles sampleInstr [Toggle.enable, Toggle.disable]).enabled =
      false ∧
    (runToggles sampleInstr [Toggle.enable, Toggle.disable]).exportsState =
      sampleInstr.exportsState ∧
    callMethod (runToggles sampleInstr
      [Toggle.enable, Toggle.disable]).exportsState.dbProto "exec" .null [] =
      some (.ok .undefined, []) := by
  have h := c8_disabled_transparent sampleInstr (sampleBaseMethod "exec")
    (sampleBaseMethod "prepare") (sampleBaseMethod "all")
    (sampleBaseMethod "get") (sampleBaseMethod "run")
    rfl rfl rfl rfl rfl rfl
    (fun _ _ => rfl) (fun _ _ => rfl) (fun _ _ => rfl) (fun _ _ => rfl)
    (fun _ _ => rfl) [Toggle.enable, Toggle.disable] rfl
  exact ⟨rfl, h.1, h.2.1 .null []⟩
